import Mathlib

/-!
Verification development for the Admin Division Join Engine of
`geoparquet-io`: a shallow embedding of
`geoparquet_io/core/admin_datasets.py` and
`geoparquet_io/core/add_admin_divisions_multi.py`, together with theorems
settling the specification claims about them.

Conventions of the embedding:
* Python dictionaries written as literals become association lists
  (`List (String × String)`), preserving the literal's order.
* Python exceptions become `Except String` results; raising is `.error`.
* Side effects (engine statements, file writes, console output) become an
  explicit event trace (`List Event`).
* External collaborators that live outside the translated sources
  (`geoparquet_io/core/common.py` helpers, DuckDB itself) are modelled from
  the spec, as stated in their doc comments.
-/

/-! ## Generic string helpers

`joinStrs` models Python's `sep.join(list)`; `occursB`/`occursS` are
substring-occurrence tests used to speak about the text of built SQL. -/

/-- Models Python `sep.join(parts)`. -/
def joinStrs (sep : String) : List String → String
  | [] => ""
  | [s] => s
  | s :: rest => s ++ sep ++ joinStrs sep rest

/-- `leadsB pat text` : `pat` is an initial segment of `text` (on char lists). -/
def leadsB : List Char → List Char → Bool
  | [], _ => true
  | _ :: _, [] => false
  | c :: cs, d :: ds => c == d && leadsB cs ds

/-- `occursB pat text` : `pat` occurs contiguously somewhere in `text`. -/
def occursB (pat : List Char) : List Char → Bool
  | [] => leadsB pat []
  | d :: ds => leadsB pat (d :: ds) || occursB pat ds

/-- Substring occurrence on `String`s, via the underlying char lists. -/
def occursS (pat text : String) : Bool :=
  occursB pat.data text.data

theorem strData_append (a b : String) : (a ++ b).data = a.data ++ b.data := rfl

theorem leadsB_self_append (p rest : List Char) : leadsB p (p ++ rest) = true := by
  induction p with
  | nil => rfl
  | cons c cs ih => simp [leadsB, ih]

theorem leadsB_append_of_leadsB (p : List Char) :
    ∀ t s, leadsB p t = true → leadsB p (t ++ s) = true := by
  induction p with
  | nil => intro t s _; rfl
  | cons c cs ih =>
    intro t s h
    cases t with
    | nil => simp [leadsB] at h
    | cons d ds =>
      simp only [leadsB, Bool.and_eq_true, beq_iff_eq] at h ⊢
      exact ⟨h.1, ih ds s h.2⟩

theorem occursB_of_leadsB (p t : List Char) (h : leadsB p t = true) :
    occursB p t = true := by
  cases t with
  | nil => simpa [occursB] using h
  | cons d ds => simp [occursB, h]

theorem occursB_append_left (p t s : List Char) (h : occursB p t = true) :
    occursB p (t ++ s) = true := by
  induction t with
  | nil =>
    cases p with
    | nil =>
      cases s with
      | nil => simpa [occursB] using h
      | cons d ds => simp [occursB, leadsB]
    | cons c cs => simp [occursB, leadsB] at h
  | cons d ds ih =>
    simp only [occursB, Bool.or_eq_true] at h
    rcases h with h | h
    · have : leadsB p ((d :: ds) ++ s) = true :=
        leadsB_append_of_leadsB p (d :: ds) s h
      simpa [occursB] using Or.inl this
    · simpa [occursB] using Or.inr (ih h)

theorem occursB_append_right (p t s : List Char) (h : occursB p s = true) :
    occursB p (t ++ s) = true := by
  induction t with
  | nil => simpa using h
  | cons d ds ih =>
    simp only [List.cons_append, occursB, Bool.or_eq_true]
    exact Or.inr ih

theorem occursB_sandwich (p x y : List Char) :
    occursB p (x ++ p ++ y) = true := by
  have h1 : occursB p (p ++ y) = true :=
    occursB_of_leadsB _ _ (leadsB_self_append p y)
  simpa [List.append_assoc] using occursB_append_right p x (p ++ y) h1

theorem occursS_append_left (p t s : String) (h : occursS p t = true) :
    occursS p (t ++ s) = true := by
  simpa [occursS, strData_append] using occursB_append_left p.data t.data s.data h

theorem occursS_append_right (p t s : String) (h : occursS p s = true) :
    occursS p (t ++ s) = true := by
  simpa [occursS, strData_append] using occursB_append_right p.data t.data s.data h

theorem occursS_sandwich (p x y : String) :
    occursS p (x ++ p ++ y) = true := by
  simpa [occursS, strData_append] using occursB_sandwich p.data x.data y.data

theorem occursS_self (p : String) : occursS p p = true := by
  simpa [occursS] using occursB_of_leadsB p.data p.data
    (by simpa using leadsB_self_append p.data [])

/-- If some element of `parts` contains `p`, so does the joined string. -/
theorem occursS_joinStrs (sep p : String) (parts : List String)
    (h : ∃ s ∈ parts, occursS p s = true) :
    occursS p (joinStrs sep parts) = true := by
  induction parts with
  | nil => simp at h
  | cons a rest ih =>
    rcases h with ⟨s, hs, hocc⟩
    rcases List.mem_cons.mp hs with rfl | hmem
    · cases rest with
      | nil => simpa [joinStrs] using hocc
      | cons b bs =>
        simpa [joinStrs, String.append_assoc] using
          occursS_append_left p s (sep ++ joinStrs sep (b :: bs)) hocc
    · cases rest with
      | nil => simp at hmem
      | cons b bs =>
        have h2 : occursS p (joinStrs sep (b :: bs)) = true := ih ⟨s, hmem, hocc⟩
        simpa [joinStrs, String.append_assoc] using
          occursS_append_right p (a ++ sep) (joinStrs sep (b :: bs)) h2

/-- Python `str.startswith`, as a test on the underlying char lists
(core's positional `String.startsWith` does not reduce in the kernel). -/
def startsWithL (s pre : String) : Bool := leadsB pre.data s.data

/-! ## C1: bbox pre-filtered join vs exact-only join

Semantic model of the spatial-join predicate built at
`add_admin_divisions_multi.py` lines 170–205.  Geometries are modelled as
finite point sets (`List (Int × Int)`).

Modelled from the spec: `ST_Intersects(geomA, geomB)` is the external
engine's geometry predicate ("Geometry predicate evaluation
`intersects(geomA, geomB) -> bool`"); we give it the standard point-set
semantics: the two geometries share a point. -/

structure PyBBox where
  xmin : Int
  xmax : Int
  ymin : Int
  ymax : Int
  deriving DecidableEq

/-- A geometry as a finite set of points. -/
abbrev Geom := List (Int × Int)

/-- Modelled from the spec: the engine's `ST_Intersects` — the two
geometries share at least one point. -/
def stIntersects (g1 g2 : Geom) : Bool :=
  g1.any fun p => g2.contains p

/-- `bb` is a true axis-aligned bounding box of `g`: every point of `g`
lies inside `bb`.  (This is the hypothesis of the safe-superset claim.) -/
def isBBoxOf (bb : PyBBox) (g : Geom) : Prop :=
  ∀ p ∈ g, bb.xmin ≤ p.1 ∧ p.1 ≤ bb.xmax ∧ bb.ymin ≤ p.2 ∧ p.2 ≤ bb.ymax

instance (bb : PyBBox) (g : Geom) : Decidable (isBBoxOf bb g) :=
  inferInstanceAs (Decidable (∀ p ∈ g, _ ∧ _ ∧ _ ∧ _))

/-- A row of either side of the join: its geometry column and its bbox
column. -/
structure JoinRow where
  geom : Geom
  bbox : PyBBox
  deriving DecidableEq

/-- The bbox-overlap test exactly as built in `bbox_condition`
(`add_admin_divisions_multi.py` lines 177–180):
`a.xmin <= b.xmax AND a.xmax >= b.xmin AND a.ymin <= b.ymax AND
a.ymax >= b.ymin`. -/
def bboxCondition (a b : PyBBox) : Bool :=
  decide (a.xmin ≤ b.xmax) && decide (a.xmax ≥ b.xmin) &&
  decide (a.ymin ≤ b.ymax) && decide (a.ymax ≥ b.ymin)

/-- The join predicate of the bbox branch (lines 182–193): bbox pre-filter
ANDed with `ST_Intersects(b.geom, a.geom)`. -/
def joinPredBBox (a b : JoinRow) : Bool :=
  bboxCondition a.bbox b.bbox && stIntersects b.geom a.geom

/-- The join predicate of the exact-only branch (lines 198–205):
`ST_Intersects(b.geom, a.geom)` alone. -/
def joinPredExact (a b : JoinRow) : Bool :=
  stIntersects b.geom a.geom

/-- The `LEFT JOIN` of the query: every input row is kept; it is paired
with each admin row satisfying the predicate, or with `none` when no admin
row matches. -/
def leftJoin (inp adm : List JoinRow) (pred : JoinRow → JoinRow → Bool) :
    List (JoinRow × Option JoinRow) :=
  match inp with
  | [] => []
  | a :: rest =>
    let ms := adm.filter fun b => pred a b
    (if ms.isEmpty then [(a, none)] else ms.map fun b => (a, some b)) ++
      leftJoin rest adm pred

theorem stIntersects_eq_true_iff (g1 g2 : Geom) :
    stIntersects g1 g2 = true ↔ ∃ p ∈ g1, p ∈ g2 := by
  simp [stIntersects, List.any_eq_true, List.elem_iff]

/-- Core soundness: when both bboxes really bound their geometries, the
bbox test never rejects a truly intersecting pair, so conjoining it with
the exact test changes nothing. -/
theorem joinPred_agree (a b : JoinRow)
    (ha : isBBoxOf a.bbox a.geom) (hb : isBBoxOf b.bbox b.geom) :
    joinPredBBox a b = joinPredExact a b := by
  unfold joinPredBBox joinPredExact
  cases hI : stIntersects b.geom a.geom with
  | false => simp [hI]
  | true =>
    rcases (stIntersects_eq_true_iff _ _).mp hI with ⟨p, hpb, hpa⟩
    have hA := ha p hpa
    have hB := hb p hpb
    have hbb : bboxCondition a.bbox b.bbox = true := by
      unfold bboxCondition
      simp only [Bool.and_eq_true, decide_eq_true_eq, ge_iff_le]
      omega
    simp [hI, hbb]

theorem leftJoin_congr (inp adm : List JoinRow)
    (p q : JoinRow → JoinRow → Bool)
    (h : ∀ a ∈ inp, ∀ b ∈ adm, p a b = q a b) :
    leftJoin inp adm p = leftJoin inp adm q := by
  induction inp with
  | nil => rfl
  | cons a rest ih =>
    have hf : adm.filter (fun b => p a b) = adm.filter (fun b => q a b) :=
      List.filter_congr fun b hb => h a (List.mem_cons_self a rest) b hb
    unfold leftJoin
    rw [hf, ih fun a' ha' b hb => h a' (List.mem_cons_of_mem a ha') b hb]

/-- C1: when every row's bbox column is a true axis-aligned bounding box of
its geometry, the bbox-prefiltered left join (bbox-overlap test ANDed with
the exact `ST_Intersects` predicate) produces exactly the same result set
as the exact-only left join: the bbox overlap test never excludes a pair
whose geometries intersect. -/
theorem C1_bbox_prefilter_equiv (inp adm : List JoinRow)
    (hinp : ∀ r ∈ inp, isBBoxOf r.bbox r.geom)
    (hadm : ∀ r ∈ adm, isBBoxOf r.bbox r.geom) :
    leftJoin inp adm joinPredBBox = leftJoin inp adm joinPredExact :=
  leftJoin_congr inp adm joinPredBBox joinPredExact
    fun a ha b hb => joinPred_agree a b (hinp a ha) (hadm b hb)

/-- Concrete witness for C1: two input rows (one intersecting an admin
polygon, one not) joined against one admin row, with honest bboxes. -/
theorem C1_bbox_prefilter_equiv_witness :
    (∀ r ∈ [JoinRow.mk [(0, 0), (2, 1)] ⟨0, 2, 0, 1⟩,
            JoinRow.mk [(10, 10)] ⟨10, 10, 10, 10⟩],
       isBBoxOf r.bbox r.geom) ∧
    (∀ r ∈ [JoinRow.mk [(2, 1), (3, 4)] ⟨2, 3, 1, 4⟩],
       isBBoxOf r.bbox r.geom) ∧
    leftJoin
        [JoinRow.mk [(0, 0), (2, 1)] ⟨0, 2, 0, 1⟩,
         JoinRow.mk [(10, 10)] ⟨10, 10, 10, 10⟩]
        [JoinRow.mk [(2, 1), (3, 4)] ⟨2, 3, 1, 4⟩] joinPredBBox =
      leftJoin
        [JoinRow.mk [(0, 0), (2, 1)] ⟨0, 2, 0, 1⟩,
         JoinRow.mk [(10, 10)] ⟨10, 10, 10, 10⟩]
        [JoinRow.mk [(2, 1), (3, 4)] ⟨2, 3, 1, 4⟩] joinPredExact :=
  ⟨by decide, by decide,
   C1_bbox_prefilter_equiv _ _ (by decide) (by decide)⟩

/-! ## Admin dataset abstraction (`admin_datasets.py`)

The Python class hierarchy (`AdminDataset` with variants
`CurrentAdminDataset`, `GAULAdminDataset`, `OvertureAdminDataset`,
`CustomAdminDataset`) becomes one inductive; each constructor carries the
fields its `__init__` stores.  The abstract/overridden methods become
functions matching on the variant; base-class methods become functions on
the whole type.  Raised exceptions become `Except String` errors.

One caution about the `custom` constructor: it renders the
`CustomAdminDataset` *class* — its field table and method definitions —
but the real class is uninstantiable, because `configure_s3` is declared
`@abstractmethod` on the base class (admin_datasets.py line 174) and
`CustomAdminDataset` never implements it, so Python's ABC machinery makes
`CustomAdminDataset(...)` raise `TypeError` for every argument list (see
`instantiateCustomAdminDataset` below).  The inductive therefore admits
values the program can never construct; theorems quantifying over all of
`AdminDataset` hold a fortiori of the program's instances, and statements
about which instances exist go through `AdminDatasetFactory.create` /
`instantiateCustomAdminDataset`. -/

inductive AdminDataset where
  | current (sourcePath : Option String) (verbose : Bool)
  | gaul (sourcePath : Option String) (verbose : Bool)
  | overture (sourcePath : Option String) (verbose : Bool)
  | custom (sourcePath : String) (partitionColumns : List String)
      (geometryColumn : String) (bboxColumn : Option String) (verbose : Bool)
  deriving DecidableEq

namespace AdminDataset

/-- The `source_path` attribute stored by `__init__` (for the Custom
variant the constructor takes a plain `str`). -/
def source_path : AdminDataset → Option String
  | current sp _ => sp
  | gaul sp _ => sp
  | overture sp _ => sp
  | custom sp _ _ _ _ => some sp

def verbose : AdminDataset → Bool
  | current _ v => v
  | gaul _ v => v
  | overture _ v => v
  | custom _ _ _ _ v => v

def get_dataset_name : AdminDataset → String
  | current _ _ => "Current (source.coop countries)"
  | gaul _ _ => "GAUL L2 Admin Boundaries"
  | overture _ _ => "Overture Maps Divisions"
  | custom _ _ _ _ _ => "Custom boundaries dataset"

/-- `get_default_source`; the Custom variant raises
`NotImplementedError`. -/
def get_default_source : AdminDataset → Except String String
  | current _ _ =>
    .ok "https://data.source.coop/cholmes/admin-boundaries/countries.parquet"
  | gaul _ _ => .ok "s3://nlebovits/gaul-l2-admin/by_country/*.parquet"
  | overture _ _ =>
    .ok "s3://overturemaps-us-west-2/release/2025-10-22.0/theme=divisions/type=division_area/*"
  | custom _ _ _ _ _ =>
    .error "Custom datasets require source_path to be provided"

def get_available_levels : AdminDataset → List String
  | current _ _ => ["country"]
  | gaul _ _ => ["continent", "country", "department"]
  | overture _ _ => ["country", "region"]
  | custom _ cols _ _ _ => cols

/-- `get_level_column_mapping`, with the Python dict literal rendered as an
association list in literal order. -/
def get_level_column_mapping : AdminDataset → List (String × String)
  | current _ _ => [("country", "country")]
  | gaul _ _ =>
    [("continent", "continent"), ("country", "gaul0_name"),
     ("department", "gaul2_name")]
  | overture _ _ =>
    [("country", "country"), ("region", "names['primary']")]
  | custom _ cols _ _ _ => cols.map fun c => (c, c)

def get_geometry_column : AdminDataset → String
  | current _ _ => "geometry"
  | gaul _ _ => "geometry"
  | overture _ _ => "geometry"
  | custom _ _ g _ _ => g

def get_bbox_column : AdminDataset → Option String
  | current _ _ => some "bbox"
  | gaul _ _ => some "geometry_bbox"
  | overture _ _ => some "bbox"
  | custom _ _ _ b _ => b

/-- `get_read_parquet_options`: `{}` by default; Overture overrides with
Hive partitioning. -/
def get_read_parquet_options : AdminDataset → List (String × Nat)
  | overture _ _ => [("hive_partitioning", 1)]
  | _ => []

/-- `get_subtype_filter`: `None` by default; Overture builds a
`subtype IN (...)` clause from the requested levels. -/
def get_subtype_filter (d : AdminDataset) (levels : List String) :
    Option String :=
  match d with
  | overture _ _ =>
    let level_to_subtype : List (String × String) :=
      [("country", "country"), ("region", "region")]
    let subtypes := (levels.filter fun l =>
        (level_to_subtype.map Prod.fst).contains l).map fun l =>
        ((level_to_subtype.find? fun kv => kv.1 == l).map Prod.snd).getD l
    if subtypes.isEmpty then none
    else some ("subtype IN (" ++
      joinStrs ", " (subtypes.map fun s => "'" ++ s ++ "'") ++ ")")
  | _ => none

/-- `configure_s3`: the list of statements each variant executes on the
connection, in order.  The method is declared `@abstractmethod` on the
base class (its body is a bare `pass`, i.e. no statements), and
`CustomAdminDataset` never implements it — which is exactly why the real
Custom class cannot be instantiated (`instantiateCustomAdminDataset`);
the `custom` case below renders the inherited `pass` body and is
unreachable through any constructible instance. -/
def configure_s3 : AdminDataset → List String
  | current _ _ =>
    ["SET s3_endpoint='data.source.coop';", "SET s3_url_style='path';",
     "SET s3_use_ssl=true;"]
  | gaul _ _ =>
    ["SET s3_endpoint='data.source.coop';", "SET s3_url_style='path';",
     "SET s3_use_ssl=true;"]
  | overture _ _ => ["SET s3_region='us-west-2';"]
  | custom _ _ _ _ _ => []

/-- `get_source`: `self.source_path if self.source_path else
self.get_default_source()` — Python truthiness makes `None` and the empty
string both fall back to the default. -/
def get_source (d : AdminDataset) : Except String String :=
  match d.source_path with
  | some s => if s.isEmpty then d.get_default_source else .ok s
  | none => d.get_default_source

/-- `is_remote`: prefix test on the resolved source. -/
def is_remote (d : AdminDataset) : Except String Bool := do
  let source ← d.get_source
  pure (startsWithL source "http://" || startsWithL source "https://" ||
    startsWithL source "s3://")

/-- `validate_levels`: collects every requested level not in
`get_available_levels()` and raises one `click.UsageError` naming them all
together with the available levels. -/
def validate_levels (d : AdminDataset) (levels : List String) :
    Except String Unit :=
  let available := d.get_available_levels
  let invalid := levels.filter fun level => !available.contains level
  if invalid.isEmpty then .ok ()
  else .error ("Invalid levels for " ++ d.get_dataset_name ++ ": " ++
    joinStrs ", " invalid ++ ". Available levels: " ++
    joinStrs ", " available)

/-- One `mapping[level]` lookup (total on the valid levels that
`validate_levels` lets through). -/
def level_column (d : AdminDataset) (level : String) : String :=
  ((d.get_level_column_mapping.find? fun kv => kv.1 == level).map
    Prod.snd).getD ""

/-- `get_partition_columns`: validates, then maps each level through the
level→column mapping (Python `mapping[level]`). -/
def get_partition_columns (d : AdminDataset) (levels : List String) :
    Except String (List String) := do
  _ ← d.validate_levels levels
  pure (levels.map fun level => d.level_column level)

end AdminDataset

/-! ## Factory (`AdminDatasetFactory`, default registry) -/

namespace AdminDatasetFactory

/-- The identifiers in the class-level `_datasets` dict. -/
def get_available_datasets : List String := ["current", "gaul", "overture"]

/-- `AdminDatasetFactory.create`: looks the identifier up in `_datasets`
and instantiates the class; unknown identifiers raise `click.UsageError`. -/
def create (dataset_name : String) (source_path : Option String)
    (verbose : Bool) : Except String AdminDataset :=
  if dataset_name == "current" then .ok (.current source_path verbose)
  else if dataset_name == "gaul" then .ok (.gaul source_path verbose)
  else if dataset_name == "overture" then .ok (.overture source_path verbose)
  else .error ("Unknown admin dataset: " ++ dataset_name ++ ". Available: " ++
    joinStrs ", " get_available_datasets)

end AdminDatasetFactory

/-- The `CustomAdminDataset(...)` constructor call.  `AdminDataset` is an
ABC and `configure_s3` is `@abstractmethod` (admin_datasets.py line 174);
`CustomAdminDataset` (lines 353–403) implements every abstract method
except `configure_s3`, so by Python's ABC semantics instantiating it
raises `TypeError` before `__init__` runs, whatever the arguments.  The
three factory-registered classes implement all seven abstract methods and
instantiate normally. -/
def instantiateCustomAdminDataset (_source_path : String)
    (_partition_columns : List String) (_geometry_column : String)
    (_bbox_column : Option String) (_verbose : Bool) :
    Except String AdminDataset :=
  .error "Can't instantiate abstract class CustomAdminDataset with abstract method configure_s3"

/-- `AdminDatasetFactory.create_custom` (lines 457–487): delegates to the
`CustomAdminDataset` constructor — and therefore always raises. -/
def createCustomFromFactory (source_path : String)
    (partition_columns : List String) (geometry_column : String)
    (bbox_column : Option String) (verbose : Bool) :
    Except String AdminDataset :=
  instantiateCustomAdminDataset source_path partition_columns
    geometry_column bbox_column verbose

/-! ## Event-trace model of `add_admin_divisions_multi`

Side effects become events; the run of a request is a trace together with
its outcome (`.ok ()` for normal return, `.error` for a propagated
exception).  External collaborators are an `Env` record; its doc comments
say which ones are modelled from the spec because their code
(`geoparquet_io/core/common.py`, the filesystem, DuckDB) is not among the
translated sources. -/

inductive Event where
  /-- `duckdb.connect()` -/
  | connect
  /-- `con.execute(sql)` -/
  | engineExec (sql : String)
  /-- `con.close()` -/
  | close
  /-- `click.echo(msg)` (styling dropped; `click.style` only wraps the
  text) -/
  | echo (msg : String)
  /-- Modelled from the spec: `get_parquet_metadata` reads the input
  file's embedded metadata. -/
  | readMetadata
  /-- Modelled from the spec: `add_bbox(input_parquet, "bbox", verbose)`
  mutates the input file in place. -/
  | addBboxToInput
  /-- Modelled from the spec: `write_parquet_with_metadata` writes the
  output file and reattaches the original metadata. -/
  | writeOutput
  deriving DecidableEq

/-- Result of `check_bbox_structure` (modelled from the spec: the Bbox
Structure Report: status, bbox column name if present, diagnostic
message). -/
structure BboxInfo where
  status : String
  has_bbox_column : Bool
  bbox_column_name : Option String
  message : String

/-- The external collaborators a run consults.  All of these live outside
the translated sources and are modelled from the spec (§6 External
Interfaces): URL resolution, geometry-column detection, bbox inspection,
the local filesystem, and the engine's success/failure behaviour. -/
structure Env where
  /-- Modelled from the spec: `safe_file_url` — safe URL/path resolution. -/
  safeFileUrl : String → String
  /-- Modelled from the spec: `find_primary_geometry_column` on the input. -/
  primaryGeomCol : String
  /-- Modelled from the spec: `check_bbox_structure` on the input file. -/
  bboxInfo : BboxInfo
  /-- Modelled from the spec: `check_bbox_structure` re-run after
  `add_bbox` repaired the input. -/
  bboxInfoAfterAdd : BboxInfo
  /-- Modelled from the spec: `os.path.exists` for local sources. -/
  pathExists : String → Bool
  /-- Whether `con.execute(sql)` succeeds or raises an engine error. -/
  engineOk : String → Bool
  /-- Row count returned by the `SELECT COUNT(*)` query. -/
  rowCount : Nat
  /-- `total_features` returned by the statistics query. -/
  statsTotal : Nat
  /-- `features_with_admin` returned by the statistics query. -/
  statsWith : Nat
  /-- Distinct-value count per level from the per-level queries. -/
  uniqueCount : String → Nat

/-- A run: the ordered event trace and the outcome. -/
abbrev Run := List Event × Except String Unit

/-- Prepend events to a run. -/
def runStep (es : List Event) (next : Run) : Run := (es ++ next.1, next.2)

/-- `con.execute(sql)`: the attempt is traced; on engine failure the
exception propagates and nothing after it runs. -/
def engineStep (env : Env) (sql : String) (next : Run) : Run :=
  if env.engineOk sql then (Event.engineExec sql :: next.1, next.2)
  else ([Event.engineExec sql], .error ("engine error: " ++ sql))

/-- A sequence of `con.execute` calls. -/
def engineSteps (env : Env) : List String → Run → Run
  | [], next => next
  | s :: rest, next => engineStep env s (engineSteps env rest next)

/-- The connection-setup statements executed at lines 142–150, in order. -/
def setupStatements : List String :=
  ["INSTALL spatial;", "LOAD spatial;", "INSTALL httpfs;", "LOAD httpfs;",
   "SET s3_endpoint='data.source.coop';", "SET s3_url_style='path';",
   "SET s3_use_ssl=true;"]

/-- Python truthiness of an optional string: `None` and `""` are falsy. -/
def truthyOpt : Option String → Bool
  | some s => !s.isEmpty
  | none => false

/-- Python `x or 'none'` on an optional string. -/
def orNoneStr (o : Option String) : String :=
  if truthyOpt o then o.getD "none" else "none"

/-- `AdminDataset.prepare_data_source` (admin_datasets.py lines 188–213):
remote sources are referenced directly; local sources must exist on the
filesystem; either way the returned table reference is the quoted source.
Returns the echo events it emits plus its result. -/
def prepare_data_source (env : Env) (d : AdminDataset) :
    List Event × Except String String :=
  match d.get_source with
  | .error e => ([], .error e)
  | .ok source =>
    if startsWithL source "http://" || startsWithL source "https://" ||
        startsWithL source "s3://" then
      ((if d.verbose then [Event.echo ("Using remote dataset: " ++ source)]
        else []),
       .ok ("'" ++ source ++ "'"))
    else if !env.pathExists source then
      ([], .error ("Data source file not found: " ++ source))
    else
      ((if d.verbose then [Event.echo ("Using local data source: " ++ source)]
        else []),
       .ok ("'" ++ source ++ "'"))

/-! ### Query construction (lines 160–205) -/

/-- The per-level aliasing clause: `b."<col>" as "admin:<level>"`, joined
with `", "`, over `zip(levels, partition_columns)`. -/
def admin_select_clause (levels partition_columns : List String) : String :=
  joinStrs ", " ((levels.zip partition_columns).map fun lc =>
    "b.\"" ++ lc.2 ++ "\" as \"admin:" ++ lc.1 ++ "\"")

/-- The bbox-overlap condition text (lines 177–180). -/
def bbox_condition_sql (ibc abc : String) : String :=
  "(a." ++ ibc ++ ".xmin <= b." ++ abc ++ ".xmax AND\n        a." ++ ibc ++
  ".xmax >= b." ++ abc ++ ".xmin AND\n        a." ++ ibc ++
  ".ymin <= b." ++ abc ++ ".ymax AND\n        a." ++ ibc ++
  ".ymax >= b." ++ abc ++ ".ymin)"

/-- The spatial-join query text (lines 170–205): bbox-prefiltered form
when both sides have a truthy bbox column, exact-only form otherwise. -/
def buildJoinQuery (input_url admin_table_ref sel admin_geom_col
    input_geom_col : String) (input_bbox_col admin_bbox_col : Option String) :
    String :=
  if truthyOpt input_bbox_col && truthyOpt admin_bbox_col then
    "\n    SELECT\n        a.*,\n        " ++ sel ++ "\n    FROM '" ++
    input_url ++ "' a\n    LEFT JOIN " ++ admin_table_ref ++
    " b\n    ON " ++
    bbox_condition_sql (input_bbox_col.getD "") (admin_bbox_col.getD "") ++
    "  -- Fast bbox intersection test\n        AND ST_Intersects(  -- More expensive precise check only on bbox matches\n            b." ++
    admin_geom_col ++ ",\n            a." ++ input_geom_col ++
    "\n        )\n"
  else
    "\n    SELECT\n        a.*,\n        " ++ sel ++ "\n    FROM '" ++
    input_url ++ "' a\n    LEFT JOIN " ++ admin_table_ref ++
    " b\n    ON ST_Intersects(b." ++ admin_geom_col ++ ", a." ++
    input_geom_col ++ ")\n"

/-- `compression.lower()` with the `UNCOMPRESSED` special case
(lines 223–225). -/
def duckdbCompression (compression : String) : String :=
  if compression == "UNCOMPRESSED" then "uncompressed"
  else compression.toLower

/-- `compression_str` (lines 218–221); Python renders an absent level as
the literal `None`. -/
def compressionStr (compression : String) (lvl : Option Nat) : String :=
  if ["GZIP", "ZSTD", "BROTLI"].contains compression then
    compression ++ ":" ++ (lvl.map toString).getD "None"
  else compression

/-- The `COPY`-wrapped query shown in dry-run mode (lines 226–228). -/
def displayQueryOf (query output_parquet compression : String) : String :=
  "COPY (" ++ query.trim ++ ")\nTO '" ++ output_parquet ++
  "'\n(FORMAT PARQUET, COMPRESSION '" ++ duckdbCompression compression ++
  "');"

/-- The statistics query (lines 260–265). -/
def statsQueryOf (levels : List String) (output_parquet : String) : String :=
  "\n    SELECT\n        COUNT(*) as total_features,\n        COUNT(CASE WHEN " ++
  joinStrs " OR " (levels.map fun l => "\"admin:" ++ l ++ "\" IS NOT NULL") ++
  " THEN 1 END) as features_with_admin\n    FROM '" ++ output_parquet ++
  "';\n    "

/-- The per-level distinct-count query (lines 274–278). -/
def uniqueCountQueryOf (level output_parquet : String) : String :=
  "\n        SELECT COUNT(DISTINCT \"admin:" ++ level ++
  "\") as unique_count\n        FROM '" ++ output_parquet ++
  "'\n        WHERE \"admin:" ++ level ++ "\" IS NOT NULL;\n        "

/-- Arguments of `add_admin_divisions_multi` (its Python signature,
defaults included for reference: `compression="ZSTD"`, the rest
`None`/`False`). -/
structure Args where
  input_parquet : String
  output_parquet : String
  dataset_name : String
  levels : List String
  dataset_source : Option String := none
  add_bbox_flag : Bool := false
  dry_run : Bool := false
  verbose : Bool := false
  compression : String := "ZSTD"
  compression_level : Option Nat := none
  row_group_size_mb : Option Nat := none
  row_group_rows : Option Nat := none

/-- The tail of a run from the point where the admin source has been
prepared and the join query built (lines 160–291): the dry-run display
branch or the execute/statistics branch.  Number formatting drops Python's
thousands separators. -/
def runTail (env : Env) (a : Args) (dataset : AdminDataset)
    (query : String) : Run :=
  if a.dry_run then
    ([Event.echo "-- Main spatial join query"] ++
     [Event.echo (if truthyOpt env.bboxInfo.bbox_column_name &&
          truthyOpt dataset.get_bbox_column then
        "-- Using bbox columns for optimized spatial join"
      else "-- Using full geometry intersection (no bbox optimization)")] ++
     [Event.echo (displayQueryOf query a.output_parquet a.compression)] ++
     [Event.echo ("\n-- Note: Using " ++
        compressionStr a.compression a.compression_level ++ " compression")] ++
     [Event.echo
        "-- Original metadata would also be preserved in the output file"] ++
     [Event.close], .ok ())
  else
    runStep (if a.verbose then
        [Event.echo "Performing spatial join with admin boundaries..."]
      else []) <|
    -- Modelled from the spec: `write_parquet_with_metadata(con, query, …)`
    -- executes the join query on the session, writes the destination with
    -- the requested compression/row-group policy and reattaches the
    -- original metadata.
    engineStep env query <|
    runStep [Event.writeOutput] <|
    engineStep env (statsQueryOf a.levels a.output_parquet) <|
    engineSteps env (a.levels.map fun l =>
      uniqueCountQueryOf l a.output_parquet) <|
    ([Event.close] ++
     [Event.echo "\nResults:"] ++
     [Event.echo ("- Added admin division data to " ++
        toString env.statsWith ++ " of " ++ toString env.statsTotal ++
        " features")] ++
     (a.levels.map fun l => Event.echo ("- Found " ++
        toString (env.uniqueCount l) ++ " unique " ++ l ++ " values")) ++
     [Event.echo ("\nSuccessfully wrote output to: " ++ a.output_parquet)],
     .ok ())

/-- Verbose header echoes (`add_admin_divisions_multi.py` lines 59–62). -/
def verboseHeader (a : Args) (dataset : AdminDataset) (admin_source : String) :
    List Event :=
  if a.verbose then
    [Event.echo ("\nUsing admin dataset: " ++ dataset.get_dataset_name),
     Event.echo ("Data source: " ++ admin_source),
     Event.echo ("Adding admin levels: " ++ joinStrs ", " a.levels)]
  else []

/-- Dry-run banner (lines 84–106). -/
def dryRunBanner (env : Env) (a : Args) (dataset : AdminDataset)
    (admin_source : String) : List Event :=
  if a.dry_run then
    [Event.echo
       "\n=== DRY RUN MODE - SQL Commands that would be executed ===\n",
     Event.echo ("-- Input file: " ++ env.safeFileUrl a.input_parquet),
     Event.echo ("-- Admin dataset: " ++ admin_source),
     Event.echo ("-- Output file: " ++ a.output_parquet),
     Event.echo ("-- Geometry columns: " ++ env.primaryGeomCol ++
       " (input), " ++ dataset.get_geometry_column ++ " (admin)"),
     Event.echo ("-- Bbox columns: " ++
       orNoneStr env.bboxInfo.bbox_column_name ++ " (input), " ++
       orNoneStr dataset.get_bbox_column ++ " (admin)\n")]
  else []

/-- Metadata fetch, bbox warning and optional in-place bbox repair
(lines 108–134; execute branch only).  Returns its events together with
the — possibly refreshed — bbox report whose column name the query build
then uses. -/
def metadataPhase (env : Env) (a : Args) : List Event × BboxInfo :=
  if a.dry_run then ([], env.bboxInfo)
  else
    let e0 := [Event.readMetadata]
    if env.bboxInfo.status != "optimal" then
      let w := [Event.echo
        ("\nWarning: Input file could benefit from bbox optimization:\n" ++
         env.bboxInfo.message)]
      if a.add_bbox_flag && !env.bboxInfo.has_bbox_column then
        (e0 ++ w ++
         [Event.echo "Adding bbox column to input file...",
          Event.addBboxToInput,
          Event.echo "\u2713 Added bbox column and metadata to input file"],
         env.bboxInfoAfterAdd)
      else (e0 ++ w, env.bboxInfo)
    else (e0, env.bboxInfo)

/-- Verbose geometry-columns echo (lines 135–138; execute branch only). -/
def geomColsEcho (env : Env) (a : Args) (dataset : AdminDataset) :
    List Event :=
  if !a.dry_run && a.verbose then
    [Event.echo ("Using geometry columns: " ++ env.primaryGeomCol ++
      " (input), " ++ dataset.get_geometry_column ++ " (admin)")]
  else []

/-- Lines 157–205: prepare the admin source, build the aliasing clause and
join query, emit the branch diagnostics, then continue with `runTail`. -/
def prepareAndJoin (env : Env) (a : Args) (dataset : AdminDataset)
    (input_url input_geom_col admin_geom_col : String)
    (input_bbox_col admin_bbox_col : Option String)
    (partition_columns : List String) : Run :=
  match prepare_data_source env dataset with
  | (es, .error e) => (es, .error e)
  | (es, .ok admin_table_ref) =>
    let sel := admin_select_clause a.levels partition_columns
    let query := buildJoinQuery input_url admin_table_ref sel
      admin_geom_col input_geom_col input_bbox_col admin_bbox_col
    let branchEcho : List Event :=
      if truthyOpt input_bbox_col && truthyOpt admin_bbox_col then
        (if a.verbose && !a.dry_run then
          [Event.echo "Using bbox columns for initial filtering..."]
        else [])
      else
        (if !a.dry_run then
          [Event.echo
            "No bbox columns available, using full geometry intersection..."]
        else [])
    runStep (es ++ branchEcho) (runTail env a dataset query)

/-- Shallow embedding of `add_admin_divisions_multi`
(`add_admin_divisions_multi.py` lines 25–291) as an event trace plus
outcome.  Control flow, branch conditions and the order of side effects
follow the source; externals come from `env`. -/
def addAdminDivisionsMulti (env : Env) (a : Args) : Run :=
  match AdminDatasetFactory.create a.dataset_name a.dataset_source
      a.verbose with
  | .error e => ([], .error e)
  | .ok dataset =>
  -- For datasets produced by `create` (never the Custom variant)
  -- `get_source` cannot raise; this error branch is unreachable and only
  -- mirrors the propagation a raise at line 61/72 would have.
  match dataset.get_source with
  | .error e => ([], .error e)
  | .ok admin_source =>
  match dataset.validate_levels a.levels with
  | .error e => (verboseHeader a dataset admin_source, .error e)
  | .ok _ =>
  match dataset.get_partition_columns a.levels with
  | .error e => (verboseHeader a dataset admin_source, .error e)
  | .ok partition_columns =>
  let input_url := env.safeFileUrl a.input_parquet
  let pre := metadataPhase env a
  runStep (verboseHeader a dataset admin_source ++
    dryRunBanner env a dataset admin_source ++ pre.1 ++
    geomColsEcho env a dataset ++ [Event.connect]) <|
  engineSteps env setupStatements <|
  (if a.dry_run then
    prepareAndJoin env a dataset input_url env.primaryGeomCol
      dataset.get_geometry_column pre.2.bbox_column_name
      dataset.get_bbox_column partition_columns
  else
    engineStep env ("SELECT COUNT(*) FROM '" ++ input_url ++ "'") <|
    runStep [Event.echo ("Processing " ++ toString env.rowCount ++
      " input features...")] <|
    prepareAndJoin env a dataset input_url env.primaryGeomCol
      dataset.get_geometry_column pre.2.bbox_column_name
      dataset.get_bbox_column partition_columns)

/-! ## Lemmas about the run combinators -/

theorem mem_runStep (e : Event) (es : List Event) (next : Run) :
    e ∈ (runStep es next).1 ↔ e ∈ es ∨ e ∈ next.1 := by
  simp [runStep]

theorem runStep_outcome (es : List Event) (next : Run) :
    (runStep es next).2 = next.2 := rfl

theorem mem_engineStep (e : Event) (env : Env) (s : String) (next : Run)
    (h : e ∈ (engineStep env s next).1) :
    e = Event.engineExec s ∨ e ∈ next.1 := by
  unfold engineStep at h
  split at h
  · rcases List.mem_cons.mp h with h | h
    · exact Or.inl h
    · exact Or.inr h
  · simpa using Or.inl (List.mem_singleton.mp h)

theorem mem_engineSteps (e : Event) (env : Env) (sqls : List String)
    (next : Run) (h : e ∈ (engineSteps env sqls next).1) :
    (∃ s ∈ sqls, e = Event.engineExec s) ∨ e ∈ next.1 := by
  induction sqls with
  | nil => exact Or.inr h
  | cons s rest ih =>
    rcases mem_engineStep e env s _ h with h1 | h1
    · exact Or.inl ⟨s, List.mem_cons_self s rest, h1⟩
    · rcases ih h1 with ⟨t, ht, he⟩ | h2
      · exact Or.inl ⟨t, List.mem_cons_of_mem s ht, he⟩
      · exact Or.inr h2

theorem engineStep_of_ok (env : Env) (s : String) (next : Run)
    (h : env.engineOk s = true) :
    engineStep env s next = (Event.engineExec s :: next.1, next.2) := by
  simp [engineStep, h]

theorem engineSteps_of_ok (env : Env) (sqls : List String) (next : Run)
    (h : ∀ s ∈ sqls, env.engineOk s = true) :
    engineSteps env sqls next =
      (sqls.map Event.engineExec ++ next.1, next.2) := by
  induction sqls with
  | nil => rfl
  | cons s rest ih =>
    have hs : env.engineOk s = true := h s (List.mem_cons_self s rest)
    have hr := ih fun t ht => h t (List.mem_cons_of_mem s ht)
    simp [engineSteps, hr, engineStep_of_ok env s _ hs]

theorem engineStep_outcome_ok (env : Env) (s : String) (next : Run)
    (h : (engineStep env s next).2 = .ok ()) :
    env.engineOk s = true ∧ next.2 = .ok () := by
  unfold engineStep at h
  split at h
  · exact ⟨by assumption, h⟩
  · simp at h

theorem engineSteps_outcome_ok (env : Env) (sqls : List String) (next : Run)
    (h : (engineSteps env sqls next).2 = .ok ()) : next.2 = .ok () := by
  induction sqls with
  | nil => exact h
  | cons s rest ih =>
    exact ih (engineStep_outcome_ok env s _ h).2

/-- In `prepare_data_source` the only events are verbose echoes. -/
theorem prepare_events_echo (env : Env) (d : AdminDataset) :
    ∀ e ∈ (prepare_data_source env d).1, ∃ m, e = Event.echo m := by
  unfold prepare_data_source
  split
  · simp
  · split
    · split <;> simp
    · split
      · simp
      · split <;> simp

/-- In dry-run mode, `runTail` only echoes and closes. -/
theorem runTail_dry_events (env : Env) (a : Args) (d : AdminDataset)
    (q : String) (h : a.dry_run = true) :
    ∀ e ∈ (runTail env a d q).1,
      (∃ m, e = Event.echo m) ∨ e = Event.close := by
  intro e he
  simp only [runTail, h, if_true] at he
  simp only [List.append_assoc, List.mem_append, List.mem_singleton] at he
  rcases he with h1 | h1 | h1 | h1 | h1 | h1 <;>
    first
    | exact Or.inr h1
    | exact Or.inl ⟨_, h1⟩

/-- In dry-run mode, `prepareAndJoin` only echoes and closes. -/
theorem prepareAndJoin_dry_events (env : Env) (a : Args) (d : AdminDataset)
    (iu igc agc : String) (ibc abc : Option String) (pc : List String)
    (h : a.dry_run = true) :
    ∀ e ∈ (prepareAndJoin env a d iu igc agc ibc abc
        pc).1,
      (∃ m, e = Event.echo m) ∨ e = Event.close := by
  intro e he
  unfold prepareAndJoin at he
  split at he
  · rename_i es err heq
    refine Or.inl (prepare_events_echo env d e ?_)
    rw [heq]
    exact he
  · rename_i es ref heq
    rcases (mem_runStep e _ _).mp he with h1 | h1
    · rcases List.mem_append.mp h1 with h2 | h2
      · refine Or.inl (prepare_events_echo env d e ?_)
        rw [heq]
        exact h2
      · simp only [h, Bool.not_true, Bool.and_false, Bool.false_and,
          if_false] at h2
        split at h2 <;> simp_all
    · exact runTail_dry_events env a d _ h e h1


theorem verboseHeader_echo (a : Args) (d : AdminDataset) (s : String) :
    ∀ e ∈ verboseHeader a d s, ∃ m, e = Event.echo m := by
  unfold verboseHeader
  split <;> simp

theorem dryRunBanner_echo (env : Env) (a : Args) (d : AdminDataset)
    (s : String) : ∀ e ∈ dryRunBanner env a d s, ∃ m, e = Event.echo m := by
  unfold dryRunBanner
  split <;> simp

theorem geomColsEcho_echo (env : Env) (a : Args) (d : AdminDataset) :
    ∀ e ∈ geomColsEcho env a d, ∃ m, e = Event.echo m := by
  unfold geomColsEcho
  split <;> simp

theorem metadataPhase_dry (env : Env) (a : Args) (h : a.dry_run = true) :
    metadataPhase env a = ([], env.bboxInfo) := by
  simp [metadataPhase, h]

/-- Classification of every event a dry-run request can emit: echoes, the
connection acquire/release, and the fixed setup statements — nothing
else. -/
theorem dryRun_events (env : Env) (a : Args) (h : a.dry_run = true) :
    ∀ e ∈ (addAdminDivisionsMulti env a).1,
      (∃ m, e = Event.echo m) ∨ e = Event.connect ∨ e = Event.close ∨
        ∃ s ∈ setupStatements, e = Event.engineExec s := by
  intro e he
  unfold addAdminDivisionsMulti at he
  split at he
  · simp at he
  · split at he
    · simp at he
    · rename_i x1 dataset hcreate x2 src hsrc
      split at he
      · exact Or.inl (verboseHeader_echo a dataset src e he)
      · split at he
        · exact Or.inl (verboseHeader_echo a dataset src e he)
        · simp only [metadataPhase_dry env a h, h, if_true] at he
          rcases (mem_runStep e _ _).mp he with h1 | h1
          · simp only [List.append_assoc, List.mem_append,
              List.mem_singleton, List.append_nil, List.not_mem_nil,
              false_or, or_false] at h1
            rcases h1 with h1 | h1 | h1 | h1
            · exact Or.inl (verboseHeader_echo a dataset src e h1)
            · exact Or.inl (dryRunBanner_echo env a dataset src e h1)
            · exact Or.inl (geomColsEcho_echo env a dataset e h1)
            · exact Or.inr (Or.inl h1)
          · rcases mem_engineSteps e env _ _ h1 with ⟨s, hs, he'⟩ | h2
            · exact Or.inr (Or.inr (Or.inr ⟨s, hs, he'⟩))
            · rcases prepareAndJoin_dry_events env a _ _ _ _ _ _ _ h e h2
                with h4 | h4
              · exact Or.inl h4
              · exact Or.inr (Or.inr (Or.inl h4))

theorem engineStep_ok_trace (env : Env) (s : String) (next : Run)
    (h : (engineStep env s next).2 = .ok ()) :
    (engineStep env s next).1 = Event.engineExec s :: next.1 ∧
      next.2 = .ok () := by
  obtain ⟨h1, h2⟩ := engineStep_outcome_ok env s next h
  rw [engineStep_of_ok env s next h1]
  exact ⟨rfl, h2⟩

theorem engineSteps_ok_trace (env : Env) (sqls : List String) (next : Run)
    (h : (engineSteps env sqls next).2 = .ok ()) :
    (engineSteps env sqls next).1 = sqls.map Event.engineExec ++ next.1 ∧
      next.2 = .ok () := by
  induction sqls with
  | nil => exact ⟨rfl, h⟩
  | cons s rest ih =>
    have hnext : (engineSteps env rest next).2 = .ok () :=
      (engineStep_outcome_ok env s _ h).2
    obtain ⟨ht, h2⟩ := ih hnext
    obtain ⟨ht1, _⟩ := engineStep_ok_trace env s _ h
    refine ⟨?_, h2⟩
    simp only [engineSteps] at ht1 ⊢
    rw [ht1, ht]
    simp

/-- On a successful `runTail`, the connection-close event is in its
trace. -/
theorem runTail_close_on_ok (env : Env) (a : Args) (d : AdminDataset)
    (q : String) (h : (runTail env a d q).2 = .ok ()) :
    Event.close ∈ (runTail env a d q).1 := by
  by_cases hdry : a.dry_run = true
  · simp [runTail, hdry]
  · have hd2 : a.dry_run = false := by simpa using hdry
    simp only [runTail, hd2, Bool.false_eq_true, if_false] at h ⊢
    rw [runStep_outcome] at h
    obtain ⟨ht1, h⟩ := engineStep_ok_trace env q _ h
    rw [runStep_outcome] at h
    obtain ⟨ht2, h⟩ := engineStep_ok_trace env _ _ h
    obtain ⟨ht3, _⟩ := engineSteps_ok_trace env _ _ h
    rw [(mem_runStep _ _ _)]
    refine Or.inr ?_
    rw [ht1]
    refine List.mem_cons_of_mem _ ?_
    rw [(mem_runStep _ _ _)]
    refine Or.inr ?_
    rw [ht2]
    refine List.mem_cons_of_mem _ ?_
    rw [ht3]
    refine List.mem_append.mpr (Or.inr ?_)
    simp

/-- On a successful `prepareAndJoin`, the connection-close event is in its
trace. -/
theorem prepareAndJoin_close_on_ok (env : Env) (a : Args)
    (d : AdminDataset) (iu igc agc : String) (ibc abc : Option String)
    (pc : List String)
    (h : (prepareAndJoin env a d iu igc agc ibc abc pc).2 = .ok ()) :
    Event.close ∈ (prepareAndJoin env a d iu igc agc ibc abc pc).1 := by
  unfold prepareAndJoin at h ⊢
  split at h
  · simp at h
  · rename_i es ref heq
    rw [runStep_outcome] at h
    rw [(mem_runStep _ _ _)]
    exact Or.inr (runTail_close_on_ok env a d _ h)

/-- C4 (amended): on every exit path that returns normally — the execute
branch completing and the dry-run early return — the engine session is
closed before the request returns.  (On error paths it is *not* closed;
see the counterexample.) -/
theorem C4_session_closed_on_normal_exit (env : Env) (a : Args)
    (h : (addAdminDivisionsMulti env a).2 = .ok ()) :
    Event.close ∈ (addAdminDivisionsMulti env a).1 := by
  unfold addAdminDivisionsMulti at h ⊢
  split at h
  · simp at h
  · split at h
    · simp at h
    · split at h
      · simp at h
      · split at h
        · simp at h
        · rw [runStep_outcome] at h
          obtain ⟨hset, h⟩ := engineSteps_ok_trace env setupStatements _ h
          rw [(mem_runStep _ _ _)]
          refine Or.inr ?_
          rw [hset]
          refine List.mem_append.mpr (Or.inr ?_)
          by_cases hdry : a.dry_run = true
          · simp only [hdry, if_true] at h ⊢
            exact prepareAndJoin_close_on_ok env a _ _ _ _ _ _ _ h
          · have hd2 : a.dry_run = false := by simpa using hdry
            simp only [hd2, Bool.false_eq_true, if_false] at h ⊢
            obtain ⟨hc, h⟩ := engineStep_ok_trace env _ _ h
            rw [runStep_outcome] at h
            rw [hc]
            refine List.mem_cons_of_mem _ ?_
            rw [(mem_runStep _ _ _)]
            exact Or.inr (prepareAndJoin_close_on_ok env a _ _ _ _ _ _ _ h)

/-- C8 (amended): in dry-run mode the only statements executed on the
engine session are the fixed extension-install / remote-access setup
statements; neither the row-count query, nor the join query, nor the
statistics queries are executed.  (The setup statements *are* executed,
which is why the claim as stated fails; see the counterexample.) -/
theorem C8_dry_run_only_setup_statements (env : Env) (a : Args)
    (h : a.dry_run = true) :
    ∀ sql, Event.engineExec sql ∈ (addAdminDivisionsMulti env a).1 →
      sql ∈ setupStatements := by
  intro sql hmem
  rcases dryRun_events env a h _ hmem with ⟨m, hm⟩ | hm | hm | ⟨s, hs, he⟩
  · simp at hm
  · simp at hm
  · simp at hm
  · injection he with h2
    exact h2 ▸ hs

theorem get_partition_columns_of_valid (d : AdminDataset)
    (levels : List String) (h : d.validate_levels levels = .ok ()) :
    d.get_partition_columns levels =
      .ok (levels.map fun level => d.level_column level) := by
  simp [AdminDataset.get_partition_columns, h]

theorem zip_self_map {α β : Type} (f : α → β) (ls : List α) :
    ls.zip (ls.map f) = ls.map fun x => (x, f x) := by
  induction ls with
  | nil => rfl
  | cons a rest ih =>
    simp only [List.map_cons, List.zip_cons_cons]
    rw [ih]

/-- Stepping stone: the occurrence of `p` inside `s` survives being put in
any context `x ++ (s ++ y)`. -/
theorem occursS_embed (p x s y : String) (h : occursS p s = true) :
    occursS p (x ++ (s ++ y)) = true :=
  occursS_append_right p x (s ++ y) (occursS_append_left p s y h)

/-- An occurrence in the tail survives one more leading character. -/
theorem occursB_cons_skip (p : List Char) (d : Char) (ds : List Char)
    (h : occursB p ds = true) : occursB p (d :: ds) = true := by
  simp [occursB, h]

/-- Each aliasing part contains its own `admin:<level>` text. -/
theorem alias_part_contains (c l : String) :
    occursS ("admin:" ++ l)
      ("b.\"" ++ c ++ "\" as \"admin:" ++ l ++ "\"") = true := by
  unfold occursS
  simp only [strData_append, List.append_assoc]
  apply occursB_cons_skip
  apply occursB_cons_skip
  apply occursB_cons_skip
  apply occursB_append_right
  apply occursB_append_right
  apply occursB_cons_skip
  apply occursB_cons_skip
  apply occursB_cons_skip
  apply occursB_cons_skip
  apply occursB_cons_skip
  apply occursB_cons_skip
  exact occursB_of_leadsB _ _ (leadsB_self_append _ _)

/-- Every requested level's `admin:<level>` alias text occurs in the
aliasing clause built over the level→column mapping. -/
theorem admin_select_clause_contains (d : AdminDataset)
    (levels : List String) (l : String) (hl : l ∈ levels) :
    occursS ("admin:" ++ l)
      (admin_select_clause levels
        (levels.map fun level => d.level_column level)) = true := by
  unfold admin_select_clause
  refine occursS_joinStrs _ _ _ ?_
  refine ⟨"b.\"" ++ d.level_column l ++ "\" as \"admin:" ++ l ++ "\"",
    ?_, alias_part_contains _ l⟩
  rw [zip_self_map]
  rw [List.map_map]
  exact List.mem_map.mpr ⟨l, hl, rfl⟩

/-- Whatever the aliasing clause contains, the assembled join query (either
branch) contains. -/
theorem buildJoinQuery_contains_sel (iu ref sel agc igc : String)
    (ibc abc : Option String) (p : String) (h : occursS p sel = true) :
    occursS p (buildJoinQuery iu ref sel agc igc ibc abc) = true := by
  unfold occursS at h
  unfold buildJoinQuery
  split
  · unfold bbox_condition_sql
    unfold occursS
    simp only [strData_append, List.append_assoc]
    apply occursB_append_right
    apply occursB_append_left
    exact h
  · unfold occursS
    simp only [strData_append, List.append_assoc]
    apply occursB_append_right
    apply occursB_append_left
    exact h

/-- Both branches of the assembled join query contain the exact
`ST_Intersects` predicate. -/
theorem buildJoinQuery_contains_st (iu ref sel agc igc : String)
    (ibc abc : Option String) :
    occursS "ST_Intersects"
      (buildJoinQuery iu ref sel agc igc ibc abc) = true := by
  unfold buildJoinQuery
  split
  · unfold bbox_condition_sql
    unfold occursS
    simp only [strData_append, List.append_assoc]
    apply occursB_append_right
    apply occursB_append_right
    apply occursB_append_right
    apply occursB_append_right
    apply occursB_append_right
    apply occursB_append_right
    apply occursB_append_right
    apply occursB_append_right
    apply occursB_append_right
    apply occursB_append_right
    apply occursB_append_right
    apply occursB_append_right
    apply occursB_append_right
    apply occursB_append_right
    apply occursB_append_right
    apply occursB_append_right
    apply occursB_append_right
    apply occursB_append_right
    apply occursB_append_right
    apply occursB_append_right
    apply occursB_append_right
    apply occursB_append_right
    apply occursB_append_right
    apply occursB_append_right
    apply occursB_append_left
    decide
  · unfold occursS
    simp only [strData_append, List.append_assoc]
    apply occursB_append_right
    apply occursB_append_right
    apply occursB_append_right
    apply occursB_append_right
    apply occursB_append_right
    apply occursB_append_right
    apply occursB_append_left
    decide

theorem get_source_ok_of_default_ok (d : AdminDataset) (ds : String)
    (h : d.get_default_source = .ok ds) : ∃ s, d.get_source = .ok s := by
  unfold AdminDataset.get_source
  cases hsp : d.source_path with
  | none => exact ⟨ds, by simp [h]⟩
  | some s =>
    by_cases he : s.isEmpty
    · exact ⟨ds, by simp [he, h]⟩
    · exact ⟨s, by simp [he]⟩

/-- Every dataset the factory can create resolves a source without
raising (only the Custom variant's `get_default_source` raises, and the
factory never creates Custom). -/
theorem get_source_ok_of_create (n : String) (sp : Option String) (v : Bool)
    (d : AdminDataset) (h : AdminDatasetFactory.create n sp v = .ok d) :
    ∃ s, d.get_source = .ok s := by
  unfold AdminDatasetFactory.create at h
  split at h
  · cases h
    exact get_source_ok_of_default_ok _ _ rfl
  · split at h
    · cases h
      exact get_source_ok_of_default_ok _ _ rfl
    · split at h
      · cases h
        exact get_source_ok_of_default_ok _ _ rfl
      · cases h

/-- C7: a dry-run request writes no output file, never mutates the input
(no bbox auto-repair), reads no metadata, and prints the `COPY`-wrapped
display of a join query that carries one `admin:<level>` alias per
requested level together with the `ST_Intersects` exact predicate. -/
theorem C7_dry_run_frame (env : Env) (a : Args) (d : AdminDataset)
    (pes : List Event) (ref : String)
    (hdry : a.dry_run = true)
    (hc : AdminDatasetFactory.create a.dataset_name a.dataset_source
      a.verbose = .ok d)
    (hval : d.validate_levels a.levels = .ok ())
    (heng : ∀ s ∈ setupStatements, env.engineOk s = true)
    (hprep : prepare_data_source env d = (pes, .ok ref)) :
    Event.writeOutput ∉ (addAdminDivisionsMulti env a).1 ∧
    Event.addBboxToInput ∉ (addAdminDivisionsMulti env a).1 ∧
    Event.readMetadata ∉ (addAdminDivisionsMulti env a).1 ∧
    ∃ q, Event.echo (displayQueryOf q a.output_parquet a.compression) ∈
        (addAdminDivisionsMulti env a).1 ∧
      (∀ l ∈ a.levels, occursS ("admin:" ++ l) q = true) ∧
      occursS "ST_Intersects" q = true := by
  refine ⟨?_, ?_, ?_, ?_⟩
  · intro hmem
    rcases dryRun_events env a hdry _ hmem with ⟨m, hm⟩ | hm | hm | ⟨s, _, hm⟩
    all_goals simp at hm
  · intro hmem
    rcases dryRun_events env a hdry _ hmem with ⟨m, hm⟩ | hm | hm | ⟨s, _, hm⟩
    all_goals simp at hm
  · intro hmem
    rcases dryRun_events env a hdry _ hmem with ⟨m, hm⟩ | hm | hm | ⟨s, _, hm⟩
    all_goals simp at hm
  · obtain ⟨src, hsrc⟩ := get_source_ok_of_create _ _ _ _ hc
    have hgpc := get_partition_columns_of_valid d a.levels hval
    refine ⟨buildJoinQuery (env.safeFileUrl a.input_parquet) ref
      (admin_select_clause a.levels
        (a.levels.map fun level => d.level_column level))
      d.get_geometry_column env.primaryGeomCol
      env.bboxInfo.bbox_column_name d.get_bbox_column, ?_, ?_, ?_⟩
    · unfold addAdminDivisionsMulti
      simp only [hc, hsrc, hval, hgpc, metadataPhase_dry env a hdry, hdry,
        if_true]
      rw [(mem_runStep _ _ _)]
      refine Or.inr ?_
      rw [engineSteps_of_ok env setupStatements _ heng]
      refine List.mem_append.mpr (Or.inr ?_)
      unfold prepareAndJoin
      rw [hprep]
      rw [(mem_runStep _ _ _)]
      refine Or.inr ?_
      simp only [runTail, hdry, if_true]
      simp
    · intro l hl
      exact buildJoinQuery_contains_sel _ _ _ _ _ _ _ _
        (admin_select_clause_contains d a.levels l hl)
    · exact buildJoinQuery_contains_st _ _ _ _ _ _ _

/-! ## Level metadata invariants (C5, C6) -/

/-- For every variant the key list of the level→column mapping is exactly
the available-levels list. -/
theorem mapping_keys_eq_levels (d : AdminDataset) :
    d.get_level_column_mapping.map Prod.fst = d.get_available_levels := by
  cases d with
  | current sp v => rfl
  | gaul sp v => rfl
  | overture sp v => rfl
  | custom sp cols g b v =>
    show List.map Prod.fst (cols.map fun c => (c, c)) = cols
    rw [List.map_map]
    exact List.map_id cols

/-- When every requested level is available, `validate_levels` returns
without error. -/
theorem validate_levels_ok_of_mem (d : AdminDataset) (levels : List String)
    (h : ∀ l ∈ levels, l ∈ d.get_available_levels) :
    d.validate_levels levels = .ok () := by
  unfold AdminDataset.validate_levels
  have hnil : (levels.filter
      fun level => !d.get_available_levels.contains level) = [] := by
    rw [List.filter_eq_nil_iff]
    intro l hl
    simp [h l hl]
  simp only [hnil]
  rfl

theorem isEmpty_false_of_mem {α : Type} (l : List α) (a : α) (h : a ∈ l) :
    l.isEmpty = false := by
  cases l with
  | nil => simp at h
  | cons b bs => rfl

/-- When some requested level is unavailable, `validate_levels` raises one
error whose message contains every unavailable requested level and every
available level. -/
theorem validate_levels_error_lists_all (d : AdminDataset)
    (levels : List String)
    (h : ∃ l ∈ levels, l ∉ d.get_available_levels) :
    ∃ msg, d.validate_levels levels = .error msg ∧
      (∀ l ∈ levels, l ∉ d.get_available_levels → occursS l msg = true) ∧
      (∀ al ∈ d.get_available_levels, occursS al msg = true) := by
  obtain ⟨l0, hl0, hnot0⟩ := h
  have hmem0 : l0 ∈ levels.filter
      fun level => !d.get_available_levels.contains level := by
    rw [List.mem_filter]
    exact ⟨hl0, by simp [hnot0]⟩
  have hne : (levels.filter
      fun level => !d.get_available_levels.contains level).isEmpty = false :=
    isEmpty_false_of_mem _ _ hmem0
  unfold AdminDataset.validate_levels
  simp only [hne, Bool.false_eq_true, if_false]
  refine ⟨_, rfl, ?_, ?_⟩
  · intro l hl hnot
    have hmem : l ∈ levels.filter
        fun level => !d.get_available_levels.contains level := by
      rw [List.mem_filter]
      exact ⟨hl, by simp [hnot]⟩
    have hj : occursS l (joinStrs ", " (levels.filter
        fun level => !d.get_available_levels.contains level)) = true :=
      occursS_joinStrs _ _ _ ⟨l, hmem, occursS_self l⟩
    exact occursS_append_left _ _ _ (occursS_append_left _ _ _
      (occursS_append_right _ _ _ hj))
  · intro al hal
    have hj : occursS al
        (joinStrs ", " d.get_available_levels) = true :=
      occursS_joinStrs _ _ _ ⟨al, hal, occursS_self al⟩
    exact occursS_append_right _ _ _ hj

/-- C6: `validate_levels` succeeds exactly on fully-available requests,
and on any request with unavailable levels it raises a usage error whose
message lists *every* unavailable requested level (not merely the first)
together with the available levels. -/
theorem C6_validate_levels_reports_all (d : AdminDataset)
    (levels : List String) :
    ((∀ l ∈ levels, l ∈ d.get_available_levels) →
      d.validate_levels levels = .ok ()) ∧
    ((∃ l ∈ levels, l ∉ d.get_available_levels) →
      ∃ msg, d.validate_levels levels = .error msg ∧
        (∀ l ∈ levels, l ∉ d.get_available_levels → occursS l msg = true) ∧
        (∀ al ∈ d.get_available_levels, occursS al msg = true)) :=
  ⟨validate_levels_ok_of_mem d levels,
   validate_levels_error_lists_all d levels⟩

/-- Witness for C6: the spec scenario — requesting `province` from the
Overture dataset errors with a message naming `province` and listing
`country` and `region`, while requesting `country` succeeds. -/
theorem C6_validate_levels_reports_all_witness :
    (AdminDataset.validate_levels (.overture none false) ["country"] =
      .ok ()) ∧
    ∃ msg, AdminDataset.validate_levels (.overture none false)
        ["province"] = .error msg ∧
      occursS "province" msg = true ∧ occursS "country" msg = true ∧
      occursS "region" msg = true := by
  constructor
  · exact (C6_validate_levels_reports_all (.overture none false)
      ["country"]).1 (by decide)
  · obtain ⟨msg, he, hinv, hav⟩ :=
      (C6_validate_levels_reports_all (.overture none false)
        ["province"]).2 ⟨"province", by decide, by decide⟩
    exact ⟨msg, he, hinv "province" (by decide) (by decide),
      hav "country" (by decide), hav "region" (by decide)⟩

/-- C5: every dataset instance the program can construct has a non-empty
`available_levels()`, and for every variant's method table the key list
of `level_to_column()` equals `available_levels()` exactly.  The
constructible instances are exactly the factory's three registered
variants: `CustomAdminDataset(...)` raises `TypeError` for *every*
caller-supplied partition-column list, because the abstract
`configure_s3` is never implemented — so the Custom part of the claim
ranges over no instances and no constructible instance violates either
invariant. -/
theorem C5_levels_nonempty_and_keys :
    (∀ d : AdminDataset,
      d.get_level_column_mapping.map Prod.fst = d.get_available_levels) ∧
    (∀ n sp v d, AdminDatasetFactory.create n sp v = .ok d →
      d.get_available_levels ≠ []) ∧
    (∀ sp cols g b v, instantiateCustomAdminDataset sp cols g b v =
      .error "Can't instantiate abstract class CustomAdminDataset with abstract method configure_s3") ∧
    (∀ sp cols g b v, createCustomFromFactory sp cols g b v =
      .error "Can't instantiate abstract class CustomAdminDataset with abstract method configure_s3") := by
  refine ⟨mapping_keys_eq_levels, ?_, fun _ _ _ _ _ => rfl,
    fun _ _ _ _ _ => rfl⟩
  intro n sp v d h
  unfold AdminDatasetFactory.create at h
  split at h
  · cases h
    simp [AdminDataset.get_available_levels]
  · split at h
    · cases h
      simp [AdminDataset.get_available_levels]
    · split at h
      · cases h
        simp [AdminDataset.get_available_levels]
      · cases h

/-- Witness for C5: the Overture variant is constructible with non-empty
levels and matching mapping keys, while the Custom constructor rejects
even the spec's own scenario arguments. -/
theorem C5_levels_nonempty_and_keys_witness :
    AdminDatasetFactory.create "overture" none false =
      .ok (.overture none false) ∧
    AdminDataset.get_available_levels (.overture none false) ≠ [] ∧
    (AdminDataset.get_level_column_mapping
      (.overture none false)).map Prod.fst =
      AdminDataset.get_available_levels (.overture none false) ∧
    instantiateCustomAdminDataset "boundaries.parquet" ["region_name"]
      "geom" none false =
      .error "Can't instantiate abstract class CustomAdminDataset with abstract method configure_s3" :=
  ⟨rfl,
   C5_levels_nonempty_and_keys.2.1 "overture" none false
     (.overture none false) rfl,
   C5_levels_nonempty_and_keys.1 (.overture none false),
   C5_levels_nonempty_and_keys.2.2.1 "boundaries.parquet" ["region_name"]
     "geom" none false⟩

/-- The same dataset constructed with a different `source_path` argument
(for the Custom variant, whose constructor takes a plain `str`, an absent
override is the empty string). -/
def withSource : AdminDataset → Option String → AdminDataset
  | .current _ v, sp => .current sp v
  | .gaul _ v, sp => .gaul sp v
  | .overture _ v, sp => .overture sp v
  | .custom _ cols g b v, sp => .custom (sp.getD "") cols g b v

/-- C10: an empty-string source override is treated exactly like an
absent override — `get_source` falls back to the default source, and
`is_remote` / `prepare_data_source` behave identically to the
no-override dataset. -/
theorem C10_empty_override_is_default (d : AdminDataset) (env : Env) :
    (withSource d (some "")).get_source =
      (withSource d (some "")).get_default_source ∧
    (withSource d (some "")).get_source = (withSource d none).get_source ∧
    (withSource d (some "")).is_remote = (withSource d none).is_remote ∧
    prepare_data_source env (withSource d (some "")) =
      prepare_data_source env (withSource d none) := by
  have he : ("" : String).isEmpty = true := rfl
  have hsrc : (withSource d (some "")).get_source =
      (withSource d (some "")).get_default_source := by
    cases d <;>
      simp [withSource, AdminDataset.get_source, AdminDataset.source_path,
        AdminDataset.get_default_source, he]
  have hdef : (withSource d (some "")).get_default_source =
      (withSource d none).get_default_source := by
    cases d <;> rfl
  have hsrc2 : (withSource d (some "")).get_source =
      (withSource d none).get_source := by
    rw [hsrc, hdef]
    cases d <;>
      simp [withSource, AdminDataset.get_source, AdminDataset.source_path,
        AdminDataset.get_default_source, he]
  refine ⟨hsrc, hsrc2, ?_, ?_⟩
  · unfold AdminDataset.is_remote
    rw [hsrc2]
  · unfold prepare_data_source
    rw [hsrc2]
    have hverb : (withSource d (some "")).verbose =
        (withSource d none).verbose := by
      cases d <;> rfl
    rw [hverb]

/-! ## Registry extension (C9)

`AdminDatasetFactory.register_dataset` mutates the class-level `_datasets`
dict after an `issubclass` check; `create` looks the identifier up in that
dict.  The dict is modelled as an explicit association list threaded
through the operations. -/

/-- A Python class object as the factory sees it: its repr text, whether
`issubclass(cls, AdminDataset)` holds, and — for conforming classes — the
constructor behaviour `cls(source_path=…, verbose=…)`. -/
structure DatasetClass where
  reprText : String
  isAdminSubclass : Bool
  construct : Option String → Bool → AdminDataset

abbrev Registry := List (String × DatasetClass)

/-- `AdminDatasetFactory.register_dataset` (admin_datasets.py lines
489–503): the `issubclass` check raises `TypeError` *before* the dict
assignment, so on failure the registry is returned unchanged; on success
the entry is inserted/overwritten. -/
def register_dataset (r : Registry) (name : String) (cls : DatasetClass) :
    Registry × Option String :=
  if !cls.isAdminSubclass then
    (r, some (cls.reprText ++ " must be a subclass of AdminDataset"))
  else ((name, cls) :: r.filter (fun kv => kv.1 != name), none)

/-- `AdminDatasetFactory.create` (lines 431–455) over the registry dict. -/
def createFromRegistry (r : Registry) (dataset_name : String)
    (source_path : Option String) (verbose : Bool) :
    Except String AdminDataset :=
  match r.find? (fun kv => kv.1 == dataset_name) with
  | none => .error ("Unknown admin dataset: " ++ dataset_name ++
      ". Available: " ++ joinStrs ", " (r.map Prod.fst))
  | some kv => .ok (kv.2.construct source_path verbose)

/-- The base-class (inherited) part of the Admin Dataset contract, which
every value of the abstract type satisfies: the level→column key list
matches the available levels, fully-available level requests validate,
and a truthy stored source path is the resolved source. -/
def SatisfiesAdminContract (d : AdminDataset) : Prop :=
  (d.get_level_column_mapping.map Prod.fst = d.get_available_levels) ∧
  (∀ ls, (∀ l ∈ ls, l ∈ d.get_available_levels) →
    d.validate_levels ls = .ok ()) ∧
  (∀ s, d.source_path = some s → ¬s.isEmpty → d.get_source = .ok s)

theorem satisfiesAdminContract_all (d : AdminDataset) :
    SatisfiesAdminContract d := by
  refine ⟨mapping_keys_eq_levels d, validate_levels_ok_of_mem d, ?_⟩
  intro s hs hne
  unfold AdminDataset.get_source
  rw [hs]
  simp [hne]

/-- C9: registering a conforming constructor succeeds, a subsequent
`create` with the same identifier returns the instance that constructor
builds — an instance satisfying the Admin Dataset contract — while
registering a non-conforming constructor fails with a `TypeError` before
insertion, leaving the registry unchanged. -/
theorem C9_register_then_create (r : Registry) (name : String)
    (cls : DatasetClass) (sp : Option String) (v : Bool) :
    (cls.isAdminSubclass = true →
      (register_dataset r name cls).2 = none ∧
      createFromRegistry (register_dataset r name cls).1 name sp v =
        .ok (cls.construct sp v) ∧
      SatisfiesAdminContract (cls.construct sp v)) ∧
    (cls.isAdminSubclass = false →
      (register_dataset r name cls).1 = r ∧
      (register_dataset r name cls).2 =
        some (cls.reprText ++ " must be a subclass of AdminDataset")) := by
  constructor
  · intro h
    refine ⟨?_, ?_, satisfiesAdminContract_all _⟩
    · simp [register_dataset, h]
    · simp [register_dataset, h, createFromRegistry, List.find?]
  · intro h
    constructor <;> simp [register_dataset, h]

/-- Witness for C9: a conforming class registered into the empty registry
is immediately creatable, and a non-conforming class is rejected with the
registry unchanged. -/
theorem C9_register_then_create_witness :
    ((register_dataset [] "mine"
        ⟨"<class Mine>", true, fun sp v => .current sp v⟩).2 = none ∧
      createFromRegistry (register_dataset [] "mine"
        ⟨"<class Mine>", true, fun sp v => .current sp v⟩).1 "mine"
          none false = .ok (.current none false) ∧
      SatisfiesAdminContract (AdminDataset.current none false)) ∧
    ((register_dataset [] "bad"
        ⟨"<class Bad>", false, fun sp v => .current sp v⟩).1 = [] ∧
      (register_dataset [] "bad"
        ⟨"<class Bad>", false, fun sp v => .current sp v⟩).2 =
        some "<class Bad> must be a subclass of AdminDataset") :=
  ⟨(C9_register_then_create [] "mine"
      ⟨"<class Mine>", true, fun sp v => .current sp v⟩ none false).1 rfl,
   (C9_register_then_create [] "bad"
      ⟨"<class Bad>", false, fun sp v => .current sp v⟩ none false).2 rfl⟩

/-! ## Concrete run fixtures -/

/-- A bbox report for an input whose bbox column is already optimal. -/
def optimalBbox : BboxInfo := BboxInfo.mk "optimal" true (some "bbox") ""

/-- Fully permissive environment: every path exists, every engine
statement succeeds. -/
def envAllOk : Env :=
  Env.mk (fun s => s) "geometry" optimalBbox optimalBbox
    (fun _ => true) (fun _ => true) 5 5 3 (fun _ => 2)

/-- Environment whose engine rejects every statement. -/
def envEngineDown : Env :=
  Env.mk (fun s => s) "geometry" optimalBbox optimalBbox
    (fun _ => true) (fun _ => false) 5 5 3 (fun _ => 2)

/-- Environment with an empty local filesystem. -/
def envNoFiles : Env :=
  Env.mk (fun s => s) "geometry" optimalBbox optimalBbox
    (fun _ => false) (fun _ => true) 5 5 3 (fun _ => 2)

/-- Execute-branch request against Overture at the `region` level. -/
def argsOvertureExec : Args :=
  { input_parquet := "in.parquet", output_parquet := "out.parquet",
    dataset_name := "overture", levels := ["region"] }

/-- Execute-branch request against GAUL with a local source override. -/
def argsGaulLocalExec : Args :=
  { input_parquet := "in.parquet", output_parquet := "out.parquet",
    dataset_name := "gaul", levels := ["country"],
    dataset_source := some "/data/gaul.parquet" }

/-- Dry-run request against GAUL at `country` and `department`. -/
def argsGaulDry : Args :=
  { input_parquet := "in.parquet", output_parquet := "out.parquet",
    dataset_name := "gaul", levels := ["country", "department"],
    dry_run := true }

set_option maxRecDepth 40000 in
/-- C2: the Overture dataset's `configure_s3` would set the `us-west-2`
region, but the execute branch never invokes any dataset's `configure_s3`
on the session it opens: the region statement appears nowhere in a
successful Overture run's trace (only the generic source.coop
configuration does). -/
theorem C2_configure_s3_never_invoked :
    AdminDataset.configure_s3 (.overture none false) =
      ["SET s3_region='us-west-2';"] ∧
    (addAdminDivisionsMulti envAllOk argsOvertureExec).2 = .ok () ∧
    Event.engineExec "SET s3_endpoint='data.source.coop';" ∈
      (addAdminDivisionsMulti envAllOk argsOvertureExec).1 ∧
    (∀ c ∈ AdminDataset.configure_s3 (.overture none false),
      Event.engineExec c ∉
        (addAdminDivisionsMulti envAllOk argsOvertureExec).1) := by
  refine ⟨rfl, rfl, by decide, by decide⟩

set_option maxRecDepth 40000 in
/-- C3: `get_subtype_filter` for Overture at `region` does produce the
`subtype IN ('region')` row filter, but no statement the run executes on
the engine ever mentions `subtype` — the filter is never applied, so the
join loads every feature subtype.  (The `.all` condition says: every
`engineExec` event's SQL is free of the text `subtype`.) -/
theorem C3_subtype_filter_never_applied :
    AdminDataset.get_subtype_filter (.overture none false) ["region"] =
      some "subtype IN ('region')" ∧
    (addAdminDivisionsMulti envAllOk argsOvertureExec).2 = .ok () ∧
    ((addAdminDivisionsMulti envAllOk argsOvertureExec).1.all fun e =>
      match e with
      | Event.engineExec sql => !occursS "subtype" sql
      | _ => true) = true := by
  refine ⟨rfl, rfl, by decide⟩

set_option maxRecDepth 40000 in
/-- Counterexample for C4 as stated: on the error path where the admin
source is a local path that does not exist, the request propagates the
error after acquiring the engine session but without ever closing it. -/
theorem C4_counterexample_error_path_leaks_session :
    (addAdminDivisionsMulti envNoFiles argsGaulLocalExec).2 =
      .error "Data source file not found: /data/gaul.parquet" ∧
    Event.connect ∈ (addAdminDivisionsMulti envNoFiles argsGaulLocalExec).1 ∧
    Event.close ∉ (addAdminDivisionsMulti envNoFiles argsGaulLocalExec).1 := by
  refine ⟨rfl, by decide, by decide⟩

set_option maxRecDepth 40000 in
/-- Witness for C4 (amended) at a successful execute-branch run. -/
theorem C4_session_closed_on_normal_exit_witness :
    (addAdminDivisionsMulti envAllOk argsOvertureExec).2 = .ok () ∧
    Event.close ∈ (addAdminDivisionsMulti envAllOk argsOvertureExec).1 :=
  ⟨rfl, C4_session_closed_on_normal_exit envAllOk argsOvertureExec rfl⟩

set_option maxRecDepth 40000 in
/-- Counterexample for C8 as stated: a dry-run request *does* execute
statements on the engine session — the extension-install/configuration
statements — and when one of them fails the dry run raises that engine
error. -/
theorem C8_counterexample_dry_run_executes_setup :
    argsGaulDry.dry_run = true ∧
    Event.engineExec "INSTALL spatial;" ∈
      (addAdminDivisionsMulti envAllOk argsGaulDry).1 ∧
    (addAdminDivisionsMulti envEngineDown argsGaulDry).2 =
      .error "engine error: INSTALL spatial;" := by
  refine ⟨rfl, by decide, rfl⟩

set_option maxRecDepth 40000 in
/-- Witness for C8 (amended): the dry-run setup statement observed in the
trace is indeed one of the fixed setup statements. -/
theorem C8_dry_run_only_setup_statements_witness :
    argsGaulDry.dry_run = true ∧
    Event.engineExec "INSTALL spatial;" ∈
      (addAdminDivisionsMulti envAllOk argsGaulDry).1 ∧
    "INSTALL spatial;" ∈ setupStatements :=
  ⟨rfl, by decide,
   C8_dry_run_only_setup_statements envAllOk argsGaulDry rfl
     "INSTALL spatial;" (by decide)⟩

set_option maxRecDepth 40000 in
/-- Witness for C7 at the spec's dry-run scenario: GAUL with levels
`country` and `department`. -/
theorem C7_dry_run_frame_witness :
    Event.writeOutput ∉ (addAdminDivisionsMulti envAllOk argsGaulDry).1 ∧
    Event.addBboxToInput ∉ (addAdminDivisionsMulti envAllOk argsGaulDry).1 ∧
    Event.readMetadata ∉ (addAdminDivisionsMulti envAllOk argsGaulDry).1 ∧
    ∃ q, Event.echo (displayQueryOf q argsGaulDry.output_parquet
        argsGaulDry.compression) ∈
        (addAdminDivisionsMulti envAllOk argsGaulDry).1 ∧
      (∀ l ∈ argsGaulDry.levels, occursS ("admin:" ++ l) q = true) ∧
      occursS "ST_Intersects" q = true :=
  C7_dry_run_frame envAllOk argsGaulDry (.gaul none false) []
    "'s3://nlebovits/gaul-l2-admin/by_country/*.parquet'" rfl rfl rfl
    (fun _ _ => rfl) rfl
